import Mathlib

/- Verification of the interactive code-execution agent (app/python_agent.py):
   a shallow embedding of the agent's state, its two-phase execute dispatch,
   stream capture, history persistence and the facade operations. -/

namespace Arog

/-- Runtime values of the modelled dynamic-language fragment: the designated
no-value sentinel (Python's None), integers, strings, tuples, and opaque
objects (modules, classes, functions) identified by their display tag. -/
inductive Value where
  | none : Value
  | int : Int → Value
  | str : String → Value
  | pair : Value → Value → Value
  | obj : String → Value
deriving DecidableEq

/-- The textual (repr) form of a value, as the source's repr(output) produces. -/
def Value.reprStr : Value → String
  | Value.none => "None"
  | Value.int n => toString n
  | Value.str s => "'" ++ s ++ "'"
  | Value.pair a b => "(" ++ a.reprStr ++ ", " ++ b.reprStr ++ ")"
  | Value.obj t => t

/-- The str() form of a value, used by print: strings display without quotes. -/
def Value.toDisplay : Value → String
  | Value.str s => s
  | Value.none => "None"
  | Value.int n => toString n
  | Value.pair a b => "(" ++ a.reprStr ++ ", " ++ b.reprStr ++ ")"
  | Value.obj t => t

/-- The agent's execution namespace (the source's self.namespace dict),
modelled as an association list from identifier to value. -/
abbrev Namespace := List (String × Value)

/-- Dictionary lookup in the namespace. -/
def lookupNs : Namespace → String → Option Value
  | [], _ => Option.none
  | (y, w) :: rest, x => if y = x then some w else lookupNs rest x

/-- Dictionary update in the namespace: replace an existing binding in place,
otherwise append the new binding at the end. -/
def insertNs : Namespace → String → Value → Namespace
  | [], x, v => [(x, v)]
  | (y, w) :: rest, x, v =>
    if y = x then (y, v) :: rest else (y, w) :: insertNs rest x v

/-- A raised fault: its kind (the exception class name) and its message. -/
structure PyError where
  type : String
  message : String
deriving DecidableEq

/-- The diagnostic trace the source builds with traceback.format_exc(). -/
def formatExc (e : PyError) : String :=
  "Traceback (most recent call last):\n  File \"<string>\", line 1, in <module>\n"
    ++ e.type ++ ": " ++ e.message ++ "\n"

/-- The structured error stored in a record (source lines 130-134):
fault-kind label, message, and full diagnostic trace. -/
structure ErrObj where
  type : String
  message : String
  traceback : String
deriving DecidableEq

/-- The mutable state an execution runs against: the namespace plus the
per-call stdout and stderr capture buffers (the two StringIO objects). -/
structure EvalState where
  ns : Namespace
  out : String
  err : String
deriving DecidableEq

/-- Expressions of the modelled fragment.  callPrint models print(e) (writes
to the captured stdout, returns None); callPrintErr models
print(e, file=sys.stderr).  pair models a tuple display, which lets an
expression sequence a side effect before a fault. -/
inductive Expr where
  | lit : Value → Expr
  | var : String → Expr
  | add : Expr → Expr → Expr
  | floordiv : Expr → Expr → Expr
  | pair : Expr → Expr → Expr
  | callPrint : Expr → Expr
  | callPrintErr : Expr → Expr
deriving DecidableEq

/-- Statements of the modelled fragment: assignment and expression statement. -/
inductive Stmt where
  | assign : String → Expr → Stmt
  | exprStmt : Expr → Stmt
deriving DecidableEq

/-- A submitted code string, by how the source's two-phase dispatch reads it:
either it parses as a single expression (eval succeeds in compiling it), or it
is only a statement sequence (eval raises SyntaxError; exec then runs it).
Empty or whitespace-only code is the empty statement sequence: eval rejects
it with SyntaxError and exec of it is a no-op. -/
inductive Code where
  | expr : Expr → Code
  | stmts : List Stmt → Code
deriving DecidableEq

/-- Evaluate an expression, threading the state so that side effects (stream
writes) performed before a fault persist. -/
def evalExpr : Expr → EvalState → (Except PyError Value) × EvalState
  | Expr.lit v, s => (Except.ok v, s)
  | Expr.var x, s =>
    match lookupNs s.ns x with
    | some v => (Except.ok v, s)
    | Option.none =>
      (Except.error ⟨"NameError", "name '" ++ x ++ "' is not defined"⟩, s)
  | Expr.add e1 e2, s =>
    match evalExpr e1 s with
    | (Except.error er, s1) => (Except.error er, s1)
    | (Except.ok v1, s1) =>
      match evalExpr e2 s1 with
      | (Except.error er, s2) => (Except.error er, s2)
      | (Except.ok v2, s2) =>
        match v1, v2 with
        | Value.int a, Value.int b => (Except.ok (Value.int (a + b)), s2)
        | Value.str a, Value.str b => (Except.ok (Value.str (a ++ b)), s2)
        | _, _ =>
          (Except.error ⟨"TypeError", "unsupported operand type(s) for +"⟩, s2)
  | Expr.floordiv e1 e2, s =>
    match evalExpr e1 s with
    | (Except.error er, s1) => (Except.error er, s1)
    | (Except.ok v1, s1) =>
      match evalExpr e2 s1 with
      | (Except.error er, s2) => (Except.error er, s2)
      | (Except.ok v2, s2) =>
        match v1, v2 with
        | Value.int a, Value.int b =>
          if b = 0 then
            (Except.error
              ⟨"ZeroDivisionError", "integer division or modulo by zero"⟩, s2)
          else (Except.ok (Value.int (Int.fdiv a b)), s2)
        | _, _ =>
          (Except.error ⟨"TypeError", "unsupported operand type(s) for //"⟩, s2)
  | Expr.pair e1 e2, s =>
    match evalExpr e1 s with
    | (Except.error er, s1) => (Except.error er, s1)
    | (Except.ok v1, s1) =>
      match evalExpr e2 s1 with
      | (Except.error er, s2) => (Except.error er, s2)
      | (Except.ok v2, s2) => (Except.ok (Value.pair v1 v2), s2)
  | Expr.callPrint e, s =>
    match evalExpr e s with
    | (Except.error er, s1) => (Except.error er, s1)
    | (Except.ok v, s1) =>
      (Except.ok Value.none, { s1 with out := s1.out ++ v.toDisplay ++ "\n" })
  | Expr.callPrintErr e, s =>
    match evalExpr e s with
    | (Except.error er, s1) => (Except.error er, s1)
    | (Except.ok v, s1) =>
      (Except.ok Value.none, { s1 with err := s1.err ++ v.toDisplay ++ "\n" })

/-- Execute one statement against the state. -/
def execStmt : Stmt → EvalState → (Except PyError Unit) × EvalState
  | Stmt.assign x e, s =>
    match evalExpr e s with
    | (Except.error er, s1) => (Except.error er, s1)
    | (Except.ok v, s1) => (Except.ok (), { s1 with ns := insertNs s1.ns x v })
  | Stmt.exprStmt e, s =>
    match evalExpr e s with
    | (Except.error er, s1) => (Except.error er, s1)
    | (Except.ok _, s1) => (Except.ok (), s1)

/-- Execute a statement sequence; a fault stops the sequence, keeping the
partial mutations made before it. -/
def execStmts : List Stmt → EvalState → (Except PyError Unit) × EvalState
  | [], s => (Except.ok (), s)
  | st :: rest, s =>
    match execStmt st s with
    | (Except.error er, s1) => (Except.error er, s1)
    | (Except.ok _, s1) => execStmts rest s1

/-- The source's two-phase dispatch (lines 110-118): try eval first; the
except-clause at line 115 catches exactly the faults whose kind is
SyntaxError, and only those fall through to exec of the same text (which, for
text that is an expression, is the single expression statement); any other
fault propagates.  Result: ok (some v) = expression value, ok none =
statement-phase success, error = runtime fault. -/
def runPhases : Code → EvalState → (Except PyError (Option Value)) × EvalState
  | Code.expr e, s =>
    match evalExpr e s with
    | (Except.ok v, s1) => (Except.ok (some v), s1)
    | (Except.error er, s1) =>
      if er.type = "SyntaxError" then
        match execStmts [Stmt.exprStmt e] s1 with
        | (Except.ok _, s2) => (Except.ok Option.none, s2)
        | (Except.error er2, s2) => (Except.error er2, s2)
      else (Except.error er, s1)
  | Code.stmts ss, s =>
    match execStmts ss s with
    | (Except.ok _, s1) => (Except.ok Option.none, s1)
    | (Except.error er, s1) => (Except.error er, s1)

/-- One execution record, the dict built at source lines 97-105. -/
structure ExecRecord where
  timestamp : String
  code : Code
  output : Option String
  stdout : Option String
  stderr : Option String
  error : Option ErrObj
  success : Bool
deriving DecidableEq

/-- Build the record from the phase outcome, mirroring lines 107-135: on
success, output is the repr of the value unless the value is None, and the
captured streams are attributed when nonempty (lines 120-127); on a fault,
the handler at 129-135 runs instead and the stream-attribution lines are
skipped, so stdout and stderr stay absent. -/
def mkRecord (ts : String) (code : Code)
    (p : (Except PyError (Option Value)) × EvalState) : ExecRecord :=
  match p.1 with
  | Except.ok ov =>
    { timestamp := ts
      code := code
      output :=
        match ov with
        | some v => if v = Value.none then Option.none else some v.reprStr
        | Option.none => Option.none
      stdout := if p.2.out = "" then Option.none else some p.2.out
      stderr := if p.2.err = "" then Option.none else some p.2.err
      error := Option.none
      success := true }
  | Except.error er =>
    { timestamp := ts
      code := code
      output := Option.none
      stdout := Option.none
      stderr := Option.none
      error := some ⟨er.type, er.message, formatExc er⟩
      success := false }

/-- The last n elements of a list, as the slice l[-n:] produces for n >= 1
(for n larger than the length it is the whole list). -/
def takeLast (n : Nat) (l : List α) : List α := l.drop (l.length - n)

/-- The slice l[start:] with a possibly negative start, Python semantics:
a negative start counts from the end clamped at 0, a nonnegative start
drops that many elements. -/
def pySliceFrom (l : List α) (start : Int) : List α :=
  if start < 0 then l.drop (((l.length : Int) + start).toNat)
  else l.drop start.toNat

/-- The agent's state: the execution namespace, the in-memory history list,
and the durable history file (none when the file does not exist, otherwise
the list of records it holds). -/
structure Agent where
  ns : Namespace
  history : List ExecRecord
  file : Option (List ExecRecord)
deriving DecidableEq

/-- The bindings the seeding code of _init_namespace creates (modules,
typing names and the two diagnostic helpers; the optional data-analysis
libraries are absent at runtime, and their ImportError is swallowed). -/
def importBindings : List (String × Value) :=
  [("os", Value.obj "<module 'os'>"),
   ("sys", Value.obj "<module 'sys'>"),
   ("json", Value.obj "<module 'json'>"),
   ("re", Value.obj "<module 're'>"),
   ("Path", Value.obj "<class 'pathlib.Path'>"),
   ("datetime", Value.obj "<class 'datetime.datetime'>"),
   ("timedelta", Value.obj "<class 'datetime.timedelta'>"),
   ("List", Value.obj "typing.List"),
   ("Dict", Value.obj "typing.Dict"),
   ("Optional", Value.obj "typing.Optional"),
   ("help_agent", Value.obj "<function help_agent>"),
   ("list_vars", Value.obj "<function list_vars>")]

/-- Apply the seeding bindings to a base namespace. -/
def seedBindings (base : Namespace) : Namespace :=
  importBindings.foldl (fun n p => insertNs n p.1 p.2) base

/-- The namespace at construction: the two dunder keys set in the
constructor, then the seeding code's bindings. -/
def initNamespace : Namespace :=
  seedBindings [("__name__", Value.str "__main__"),
                ("__builtins__", Value.obj "<builtins>")]

/-- The namespace after reset_namespace: clear() empties the dict, then the
seeding code runs again (exec re-inserts the builtins key; the constructor's
name key is not re-added). -/
def resetNs : Namespace :=
  seedBindings [("__builtins__", Value.obj "<builtins>")]

/-- PythonAgent.execute (lines 89-141): run the two-phase dispatch, build the
record, append it to the in-memory history, persist the last 1000 records to
the file, and return the record. -/
def execute (a : Agent) (ts : String) (code : Code) : Agent × ExecRecord :=
  let p := runPhases code { ns := a.ns, out := "", err := "" }
  let r := mkRecord ts code p
  let h := a.history ++ [r]
  ({ ns := p.2.ns, history := h, file := some (takeLast 1000 h) }, r)

/-- PythonAgent.get_history (lines 143-145): the slice history[-limit:]. -/
def get_history (a : Agent) (limit : Int) : List ExecRecord :=
  pySliceFrom a.history (-limit)

/-- get_history at its default argument, limit = 50. -/
def get_history_default (a : Agent) : List ExecRecord := get_history a 50

/-- PythonAgent.clear_history (lines 147-151): empty the in-memory list and
unlink the file if present. -/
def clear_history (a : Agent) : Agent :=
  { a with history := [], file := Option.none }

/-- PythonAgent.reset_namespace (lines 153-156): clear the namespace dict
and re-run the seeding code. -/
def reset_namespace (a : Agent) : Agent := { a with ns := resetNs }

/-- PythonAgent.cleanup (lines 158-160): save the history (last 1000
records) to the file; nothing else changes. -/
def cleanup (a : Agent) : Agent :=
  { a with file := some (takeLast 1000 a.history) }

/-- A fresh agent with no prior history and no durable file. -/
def agent0 : Agent := { ns := initNamespace, history := [], file := Option.none }

/-- A concrete record, used to populate concrete histories. -/
def rec0 : ExecRecord :=
  { timestamp := "t0", code := Code.stmts [], output := Option.none,
    stdout := Option.none, stderr := Option.none, error := Option.none,
    success := true }

/-- An agent whose in-memory history already holds 1000 records. -/
def agent1000 : Agent :=
  { ns := initNamespace, history := List.replicate 1000 rec0, file := Option.none }

/-- An agent whose in-memory history holds exactly one record. -/
def agentOne : Agent :=
  { ns := initNamespace, history := [rec0], file := Option.none }

/-- Looking up a key right after inserting it finds the inserted value. -/
theorem lookupNs_insertNs (ns : Namespace) (x : String) (v : Value) :
    lookupNs (insertNs ns x v) x = some v := by
  induction ns with
  | nil => simp [insertNs, lookupNs]
  | cons p rest ih =>
    obtain ⟨y, w⟩ := p
    by_cases h : y = x
    · simp [insertNs, lookupNs, h]
    · simp [insertNs, lookupNs, h, ih]

/-- No runtime fault of the modelled fragment carries the syntax-mismatch
kind: evaluation raises NameError, TypeError or ZeroDivisionError, never
SyntaxError, so the except-clause at source line 115 never catches a fault
raised while evaluating an expression that did parse. -/
theorem evalExpr_no_syntaxError (e : Expr) :
    ∀ (s : EvalState) (er : PyError) (s1 : EvalState),
      evalExpr e s = (Except.error er, s1) → er.type ≠ "SyntaxError" := by
  induction e with
  | lit v =>
    intro s er s1 h
    simp [evalExpr] at h
  | var x =>
    intro s er s1 h
    cases hx : lookupNs s.ns x with
    | none =>
      simp [evalExpr, hx] at h
      obtain ⟨h1, -⟩ := h
      subst h1
      simp
    | some v => simp [evalExpr, hx] at h
  | add e1 e2 ih1 ih2 =>
    intro s er s1 h
    rcases h1 : evalExpr e1 s with ⟨r1, t1⟩
    cases r1 with
    | error er1 =>
      simp [evalExpr, h1] at h
      obtain ⟨h2, -⟩ := h
      subst h2
      exact ih1 s er1 t1 h1
    | ok v1 =>
      rcases h2 : evalExpr e2 t1 with ⟨r2, t2⟩
      cases r2 with
      | error er2 =>
        simp [evalExpr, h1, h2] at h
        obtain ⟨h3, -⟩ := h
        subst h3
        exact ih2 t1 er2 t2 h2
      | ok v2 =>
        cases v1 <;> cases v2 <;> simp [evalExpr, h1, h2] at h <;>
          (obtain ⟨h3, -⟩ := h; subst h3; decide)
  | floordiv e1 e2 ih1 ih2 =>
    intro s er s1 h
    rcases h1 : evalExpr e1 s with ⟨r1, t1⟩
    cases r1 with
    | error er1 =>
      simp [evalExpr, h1] at h
      obtain ⟨h2, -⟩ := h
      subst h2
      exact ih1 s er1 t1 h1
    | ok v1 =>
      rcases h2 : evalExpr e2 t1 with ⟨r2, t2⟩
      cases r2 with
      | error er2 =>
        simp [evalExpr, h1, h2] at h
        obtain ⟨h3, -⟩ := h
        subst h3
        exact ih2 t1 er2 t2 h2
      | ok v2 =>
        cases v1 <;> cases v2
        case int.int a b =>
          by_cases hb : b = 0
          · simp [evalExpr, h1, h2, hb] at h
            obtain ⟨h3, -⟩ := h
            subst h3
            simp
          · simp [evalExpr, h1, h2, hb] at h
        all_goals
          (simp [evalExpr, h1, h2] at h
           obtain ⟨h3, -⟩ := h
           subst h3
           simp)
  | pair e1 e2 ih1 ih2 =>
    intro s er s1 h
    rcases h1 : evalExpr e1 s with ⟨r1, t1⟩
    cases r1 with
    | error er1 =>
      simp [evalExpr, h1] at h
      obtain ⟨h2, -⟩ := h
      subst h2
      exact ih1 s er1 t1 h1
    | ok v1 =>
      rcases h2 : evalExpr e2 t1 with ⟨r2, t2⟩
      cases r2 with
      | error er2 =>
        simp [evalExpr, h1, h2] at h
        obtain ⟨h3, -⟩ := h
        subst h3
        exact ih2 t1 er2 t2 h2
      | ok v2 => simp [evalExpr, h1, h2] at h
  | callPrint e ih =>
    intro s er s1 h
    rcases h1 : evalExpr e s with ⟨r1, t1⟩
    cases r1 with
    | error er1 =>
      simp [evalExpr, h1] at h
      obtain ⟨h2, -⟩ := h
      subst h2
      exact ih s er1 t1 h1
    | ok v => simp [evalExpr, h1] at h
  | callPrintErr e ih =>
    intro s er s1 h
    rcases h1 : evalExpr e s with ⟨r1, t1⟩
    cases r1 with
    | error er1 =>
      simp [evalExpr, h1] at h
      obtain ⟨h2, -⟩ := h
      subst h2
      exact ih s er1 t1 h1
    | ok v => simp [evalExpr, h1] at h

/-- C1: for every code string that parses and evaluates as a single
expression without a runtime fault, execute returns a record with
success=true and output equal to the repr form of the value, output being
absent exactly when the value is the None sentinel; the statement phase is
skipped, so the agent's namespace is exactly the state the single evaluation
left behind. -/
theorem C1_expression_success (a : Agent) (ts : String) (e : Expr) (v : Value)
    (s1 : EvalState)
    (h : evalExpr e { ns := a.ns, out := "", err := "" } = (Except.ok v, s1)) :
    (execute a ts (Code.expr e)).2.success = true ∧
    (execute a ts (Code.expr e)).2.error = Option.none ∧
    (execute a ts (Code.expr e)).2.output =
      (if v = Value.none then Option.none else some v.reprStr) ∧
    (execute a ts (Code.expr e)).1.ns = s1.ns := by
  refine ⟨?_, ?_, ?_, ?_⟩ <;> simp [execute, runPhases, h, mkRecord]

/-- Witness for C1 at a concrete input: the expression literal 7 on a fresh
agent evaluates without fault, so the record is successful with output the
repr of 7. -/
theorem C1_expression_success_witness :
    (execute agent0 "t" (Code.expr (Expr.lit (Value.int 7)))).2.success = true ∧
    (execute agent0 "t" (Code.expr (Expr.lit (Value.int 7)))).2.error = Option.none ∧
    (execute agent0 "t" (Code.expr (Expr.lit (Value.int 7)))).2.output =
      (if Value.int 7 = Value.none then Option.none else some (Value.int 7).reprStr) ∧
    (execute agent0 "t" (Code.expr (Expr.lit (Value.int 7)))).1.ns =
      ({ ns := agent0.ns, out := "", err := "" } : EvalState).ns :=
  C1_expression_success agent0 "t" (Expr.lit (Value.int 7)) (Value.int 7)
    { ns := agent0.ns, out := "", err := "" } rfl

/-- C2: a code string that parses as an expression but faults at run time
yields success=false and a populated error (fault kind, message, full trace);
the text is not re-run as statements — the agent keeps exactly the state the
single faulting evaluation left (no duplicated side effects), and the record
is the one appended to the history. -/
theorem C2_expression_runtime_fault (a : Agent) (ts : String) (e : Expr)
    (er : PyError) (s1 : EvalState)
    (h : evalExpr e { ns := a.ns, out := "", err := "" } = (Except.error er, s1)) :
    (execute a ts (Code.expr e)).2.success = false ∧
    (execute a ts (Code.expr e)).2.error =
      some ⟨er.type, er.message, formatExc er⟩ ∧
    (execute a ts (Code.expr e)).2.output = Option.none ∧
    (execute a ts (Code.expr e)).1.ns = s1.ns ∧
    (execute a ts (Code.expr e)).1.history =
      a.history ++ [(execute a ts (Code.expr e)).2] := by
  have hk : er.type ≠ "SyntaxError" :=
    evalExpr_no_syntaxError e { ns := a.ns, out := "", err := "" } er s1 h
  refine ⟨?_, ?_, ?_, ?_, ?_⟩ <;> simp [execute, runPhases, h, hk, mkRecord]

/-- Witness for C2 at a concrete input: dividing 1 by 0 on a fresh agent
raises a division fault, reported in the record without any fallback. -/
theorem C2_expression_runtime_fault_witness :
    (execute agent0 "t"
        (Code.expr (Expr.floordiv (Expr.lit (Value.int 1)) (Expr.lit (Value.int 0))))).2.success = false ∧
    (execute agent0 "t"
        (Code.expr (Expr.floordiv (Expr.lit (Value.int 1)) (Expr.lit (Value.int 0))))).2.error =
      some ⟨(PyError.mk "ZeroDivisionError" "integer division or modulo by zero").type,
            (PyError.mk "ZeroDivisionError" "integer division or modulo by zero").message,
            formatExc (PyError.mk "ZeroDivisionError" "integer division or modulo by zero")⟩ ∧
    (execute agent0 "t"
        (Code.expr (Expr.floordiv (Expr.lit (Value.int 1)) (Expr.lit (Value.int 0))))).2.output = Option.none ∧
    (execute agent0 "t"
        (Code.expr (Expr.floordiv (Expr.lit (Value.int 1)) (Expr.lit (Value.int 0))))).1.ns =
      ({ ns := agent0.ns, out := "", err := "" } : EvalState).ns ∧
    (execute agent0 "t"
        (Code.expr (Expr.floordiv (Expr.lit (Value.int 1)) (Expr.lit (Value.int 0))))).1.history =
      agent0.history ++
        [(execute agent0 "t"
            (Code.expr (Expr.floordiv (Expr.lit (Value.int 1)) (Expr.lit (Value.int 0))))).2] :=
  C2_expression_runtime_fault agent0 "t"
    (Expr.floordiv (Expr.lit (Value.int 1)) (Expr.lit (Value.int 0)))
    (PyError.mk "ZeroDivisionError" "integer division or modulo by zero")
    { ns := agent0.ns, out := "", err := "" } rfl

/-- C3: every record execute returns fits exactly one of the three shapes:
output present with success and no error, success with no output and no
error, or error present with failure and no output; in particular never both
error and success, and never both output and error. -/
theorem C3_record_trichotomy (a : Agent) (ts : String) (code : Code) :
    (((execute a ts code).2.output.isSome = true ∧
        (execute a ts code).2.success = true ∧
        (execute a ts code).2.error = Option.none) ∨
      ((execute a ts code).2.output = Option.none ∧
        (execute a ts code).2.success = true ∧
        (execute a ts code).2.error = Option.none) ∨
      ((execute a ts code).2.error.isSome = true ∧
        (execute a ts code).2.success = false ∧
        (execute a ts code).2.output = Option.none)) ∧
    ¬((execute a ts code).2.error.isSome = true ∧
        (execute a ts code).2.success = true) ∧
    ¬((execute a ts code).2.output.isSome = true ∧
        (execute a ts code).2.error.isSome = true) := by
  rcases hp : runPhases code { ns := a.ns, out := "", err := "" } with ⟨res, s1⟩
  cases res with
  | ok ov =>
    cases ov with
    | none =>
      refine ⟨Or.inr (Or.inl ?_), ?_, ?_⟩ <;> simp [execute, hp, mkRecord]
    | some v =>
      by_cases hv : v = Value.none
      · refine ⟨Or.inr (Or.inl ?_), ?_, ?_⟩ <;> simp [execute, hp, mkRecord, hv]
      · refine ⟨Or.inl ?_, ?_, ?_⟩ <;> simp [execute, hp, mkRecord, hv]
  | error er =>
    refine ⟨Or.inr (Or.inr ?_), ?_, ?_⟩ <;> simp [execute, hp, mkRecord]

/-- C8: executing empty or whitespace-only code (the empty statement
sequence: eval rejects it as a syntax mismatch and exec of it is a no-op)
does not raise and returns success with no output, no error and no captured
streams, leaving the namespace untouched. -/
theorem C8_blank_code (a : Agent) (ts : String) :
    (execute a ts (Code.stmts [])).2.success = true ∧
    (execute a ts (Code.stmts [])).2.output = Option.none ∧
    (execute a ts (Code.stmts [])).2.error = Option.none ∧
    (execute a ts (Code.stmts [])).2.stdout = Option.none ∧
    (execute a ts (Code.stmts [])).2.stderr = Option.none ∧
    (execute a ts (Code.stmts [])).1.ns = a.ns := by
  refine ⟨?_, ?_, ?_, ?_, ?_, ?_⟩ <;> simp [execute, runPhases, execStmts, mkRecord]

/-- C4: every execute call appends the record to the in-memory history
without trimming it, and persists exactly the most recent 1000 records in
order; starting from 1000 stored records, the append leaves 1001 in memory
while the persisted copy holds exactly 1000, the oldest record dropped. -/
theorem C4_persistence_cap (a : Agent) (ts : String) (code : Code)
    (h : a.history.length = 1000) :
    (execute a ts code).1.history = a.history ++ [(execute a ts code).2] ∧
    (execute a ts code).1.file = some (takeLast 1000 (execute a ts code).1.history) ∧
    (execute a ts code).1.history.length = 1001 ∧
    (execute a ts code).1.file = some ((execute a ts code).1.history.drop 1) ∧
    ((execute a ts code).1.history.drop 1).length = 1000 := by
  refine ⟨rfl, rfl, ?_, ?_, ?_⟩
  · simp [execute, h]
  · simp only [execute, takeLast]
    rw [List.length_append, h]
    norm_num
  · simp only [execute]
    rw [List.length_drop, List.length_append, h]
    norm_num

/-- Witness for C4 at a concrete input: an agent holding 1000 records, on
one more execution, keeps 1001 in memory and persists 1000 with the oldest
dropped. -/
theorem C4_persistence_cap_witness :
    agent1000.history.length = 1000 ∧
    ((execute agent1000 "t" (Code.stmts [])).1.history =
        agent1000.history ++ [(execute agent1000 "t" (Code.stmts [])).2] ∧
      (execute agent1000 "t" (Code.stmts [])).1.file =
        some (takeLast 1000 (execute agent1000 "t" (Code.stmts [])).1.history) ∧
      (execute agent1000 "t" (Code.stmts [])).1.history.length = 1001 ∧
      (execute agent1000 "t" (Code.stmts [])).1.file =
        some ((execute agent1000 "t" (Code.stmts [])).1.history.drop 1) ∧
      ((execute agent1000 "t" (Code.stmts [])).1.history.drop 1).length = 1000) :=
  ⟨by
    show (List.replicate 1000 rec0).length = 1000
    rw [List.length_replicate],
   C4_persistence_cap agent1000 "t" (Code.stmts [])
    (by
      show (List.replicate 1000 rec0).length = 1000
      rw [List.length_replicate])⟩

/-- C5: a binding assigned by execution N is visible to execution N+1 on the
same agent (here: assigning a literal to a name, then evaluating that name,
succeeds with the value's repr as output); after reset_namespace the name is
unbound again — provided it is not one of the seeded names — and evaluating
it fails with a NameError. -/
theorem C5_namespace_persistence (a : Agent) (ts1 ts2 ts3 x : String) (v : Value)
    (hreset : lookupNs resetNs x = Option.none) :
    (execute (execute a ts1 (Code.stmts [Stmt.assign x (Expr.lit v)])).1 ts2
        (Code.expr (Expr.var x))).2.success = true ∧
    (execute (execute a ts1 (Code.stmts [Stmt.assign x (Expr.lit v)])).1 ts2
        (Code.expr (Expr.var x))).2.output =
      (if v = Value.none then Option.none else some v.reprStr) ∧
    (execute (reset_namespace (execute a ts1 (Code.stmts [Stmt.assign x (Expr.lit v)])).1) ts3
        (Code.expr (Expr.var x))).2.success = false ∧
    (execute (reset_namespace (execute a ts1 (Code.stmts [Stmt.assign x (Expr.lit v)])).1) ts3
        (Code.expr (Expr.var x))).2.error =
      some ⟨"NameError", "name '" ++ x ++ "' is not defined",
            formatExc ⟨"NameError", "name '" ++ x ++ "' is not defined"⟩⟩ := by
  have h2 : lookupNs (insertNs a.ns x v) x = some v := lookupNs_insertNs a.ns x v
  set A := (execute a ts1 (Code.stmts [Stmt.assign x (Expr.lit v)])).1 with hA
  have hns : A.ns = insertNs a.ns x v := by
    rw [hA]
    simp [execute, runPhases, execStmts, execStmt, evalExpr]
  refine ⟨?_, ?_, ?_, ?_⟩
  · simp [execute, runPhases, evalExpr, hns, h2, mkRecord]
  · simp [execute, runPhases, evalExpr, hns, h2, mkRecord]
  · simp [execute, reset_namespace, runPhases, evalExpr, hreset, mkRecord]
  · simp [execute, reset_namespace, runPhases, evalExpr, hreset, mkRecord]

/-- Witness for C5 at a concrete input: x is not a seeded name, so after
assigning 1 to x, reading x succeeds with output the repr of 1, and after a
reset reading x raises a NameError. -/
theorem C5_namespace_persistence_witness :
    lookupNs resetNs "x" = Option.none ∧
    ((execute (execute agent0 "t1" (Code.stmts [Stmt.assign "x" (Expr.lit (Value.int 1))])).1 "t2"
        (Code.expr (Expr.var "x"))).2.success = true ∧
      (execute (execute agent0 "t1" (Code.stmts [Stmt.assign "x" (Expr.lit (Value.int 1))])).1 "t2"
        (Code.expr (Expr.var "x"))).2.output =
        (if Value.int 1 = Value.none then Option.none else some (Value.int 1).reprStr) ∧
      (execute (reset_namespace (execute agent0 "t1" (Code.stmts [Stmt.assign "x" (Expr.lit (Value.int 1))])).1) "t3"
        (Code.expr (Expr.var "x"))).2.success = false ∧
      (execute (reset_namespace (execute agent0 "t1" (Code.stmts [Stmt.assign "x" (Expr.lit (Value.int 1))])).1) "t3"
        (Code.expr (Expr.var "x"))).2.error =
        some ⟨"NameError", "name '" ++ "x" ++ "' is not defined",
              formatExc ⟨"NameError", "name '" ++ "x" ++ "' is not defined"⟩⟩) :=
  ⟨by decide,
   C5_namespace_persistence agent0 "t1" "t2" "t3" "x" (Value.int 1) (by decide)⟩

/-- C6 counterexample: a statement sequence that prints and then faults.
The print's text does reach the capture buffer during the attempt, yet the
returned record carries no stdout at all (and does carry the error), because
the source reads the capture buffers only on the success path (lines
120-127 are skipped when the handler at line 129 runs).  This falsifies the
claim that captured text is attributed to the record on every exit path
including a runtime fault. -/
theorem C6_counterexample_fault_discards_capture :
    (execStmts [Stmt.exprStmt (Expr.callPrint (Expr.lit (Value.str "hi"))),
                Stmt.exprStmt (Expr.floordiv (Expr.lit (Value.int 1)) (Expr.lit (Value.int 0)))]
        { ns := agent0.ns, out := "", err := "" }).2.out = "hi\n" ∧
    (execute agent0 "t"
        (Code.stmts [Stmt.exprStmt (Expr.callPrint (Expr.lit (Value.str "hi"))),
                     Stmt.exprStmt (Expr.floordiv (Expr.lit (Value.int 1)) (Expr.lit (Value.int 0)))])).2.error.isSome
      = true ∧
    (execute agent0 "t"
        (Code.stmts [Stmt.exprStmt (Expr.callPrint (Expr.lit (Value.str "hi"))),
                     Stmt.exprStmt (Expr.floordiv (Expr.lit (Value.int 1)) (Expr.lit (Value.int 0)))])).2.stdout
      = Option.none := by
  refine ⟨by decide, by decide, by decide⟩

/-- C6 amended: capture is per call (the buffers start empty) and, on the
success path, exactly the text written during the attempt is attributed to
the record, absent when nothing was written; when a runtime fault is raised
the capture is still torn down without leaking, but the captured text is
discarded — the record's stdout and stderr are absent on the fault path. -/
theorem C6_stream_attribution (a : Agent) (ts : String) (code : Code) :
    (execute a ts code).2.stdout =
      (match runPhases code { ns := a.ns, out := "", err := "" } with
        | (Except.ok _, s1) => if s1.out = "" then Option.none else some s1.out
        | (Except.error _, _) => Option.none) ∧
    (execute a ts code).2.stderr =
      (match runPhases code { ns := a.ns, out := "", err := "" } with
        | (Except.ok _, s1) => if s1.err = "" then Option.none else some s1.err
        | (Except.error _, _) => Option.none) := by
  rcases hp : runPhases code { ns := a.ns, out := "", err := "" } with ⟨res, s1⟩
  cases res <;> refine ⟨?_, ?_⟩ <;> simp [execute, hp, mkRecord]

/-- C7 counterexample: with one stored record, querying with limit 0 returns
the entire history (the slice history[-0:] starts at index 0), not the last
0 records, falsifying the claim for every integer limit. -/
theorem C7_counterexample_zero_limit :
    get_history agentOne 0 ≠ takeLast 0 agentOne.history ∧
    get_history agentOne 0 = agentOne.history := by
  refine ⟨by decide, by decide⟩

/-- C7 amended: for every positive limit, querying the history returns the
last limit records in stored (oldest-first) order, the whole history when
limit is at least the stored size; the store itself is a pure value, so the
query mutates nothing; the delivery-layer default is limit = 50.  (For
limit = 0 the slice history[-0:] returns the entire history, not the last 0
records, so the claim holds only for positive limits.) -/
theorem C7_query_last (a : Agent) (limit : Int) (hpos : 1 ≤ limit) :
    get_history a limit = takeLast limit.toNat a.history ∧
    ((a.history.length : Int) ≤ limit → get_history a limit = a.history) ∧
    get_history_default a = get_history a 50 := by
  have hneg : -limit < 0 := by omega
  have harg : (((a.history.length : Int)) + (-limit)).toNat =
      a.history.length - limit.toNat := by omega
  refine ⟨?_, ?_, rfl⟩
  · simp only [get_history, pySliceFrom, takeLast]
    rw [if_pos hneg, harg]
  · intro hle
    simp only [get_history, pySliceFrom]
    rw [if_pos hneg, harg]
    have hz : a.history.length - limit.toNat = 0 := by omega
    simp [hz]

/-- Witness for C7 at a concrete input: limit 2 on an agent with one stored
record returns the whole history. -/
theorem C7_query_last_witness :
    (1 : Int) ≤ 2 ∧
    (get_history agentOne 2 = takeLast (Int.toNat 2) agentOne.history ∧
      ((agentOne.history.length : Int) ≤ 2 → get_history agentOne 2 = agentOne.history) ∧
      get_history_default agentOne = get_history agentOne 50) :=
  ⟨by norm_num, C7_query_last agentOne 2 (by norm_num)⟩

/-- C9 counterexample: after cleanup (the only shutdown the source has),
execute is still accepted and returns a successful record with no error of
any kind — there is no lifecycle-violation error, falsifying the claim that
operations invoked after shutdown fail. -/
theorem C9_counterexample_no_lifecycle_error :
    (execute (cleanup agent0) "t" (Code.stmts [])).2.success = true ∧
    (execute (cleanup agent0) "t" (Code.stmts [])).2.error = Option.none := by
  refine ⟨by decide, by decide⟩

/-- C9 amended: the agent has no lifecycle state machine.  cleanup only
flushes the last 1000 history records to the durable file — it does so on
every call, so a repeated cleanup is harmless (same persisted state, not an
error) — and every operation remains accepted after cleanup, behaving
exactly as before it. -/
theorem C9_no_lifecycle_gating (a : Agent) (ts : String) (code : Code) (limit : Int) :
    cleanup a = { a with file := some (takeLast 1000 a.history) } ∧
    cleanup (cleanup a) = cleanup a ∧
    execute (cleanup a) ts code = execute a ts code ∧
    get_history (cleanup a) limit = get_history a limit ∧
    clear_history (cleanup a) = clear_history a ∧
    (reset_namespace (cleanup a)).ns = (reset_namespace a).ns :=
  ⟨rfl, rfl, rfl, rfl, rfl, rfl⟩

/-- C10: reset_namespace rebinds only the namespace, leaving both the
in-memory history and the durable file untouched, and clear_history empties
only the history and its file, leaving the namespace bindings untouched. -/
theorem C10_frame_separation (a : Agent) :
    (reset_namespace a).history = a.history ∧
    (reset_namespace a).file = a.file ∧
    (clear_history a).ns = a.ns :=
  ⟨rfl, rfl, rfl⟩

end Arog
